import Mathlib

set_option maxHeartbeats 1000000

/-!
Verification development for `strava_hunter.py` (Strava Segment Hunter).

The Python source is embedded shallowly:

* strings are `List Char`; Python `int()` applied to a float is truncation
  toward zero (`pyInt`); Python floats are modelled as real numbers where the
  code does coordinate mathematics and as rationals where only comparisons and
  field copies happen;
* the two HTML-scraping tiers of `get_leader_stats` work on an abstract parsed
  document (`Page`): the `table`/`tbody`/`tr`/`td` shape that BeautifulSoup
  hands to the code, plus the raw page text that the regex fallback reads;
* code that can raise a Python exception is modelled with `Except PyExc`;
* the per-segment loop of `analyze_segments` is a fold that also records the
  trace of leaderboard-page scrape calls it issues.
-/

/- ## Character and string helpers (Python `str` / `re` semantics) -/

/-- Decimal value of a big-endian run of digit characters: models `int()`
applied to the digits captured by a regex group. -/
def digitsToNat (s : List Char) : ℕ :=
  s.foldl (fun a c => 10 * a + (c.toNat - 48)) 0

/-- Leftmost maximal digit run in a string, as a number: models
`re.search` of one-or-more digits followed by `int` of the captured group
(used by the cell parsing of `get_leader_stats`). -/
def firstNum : List Char → Option ℕ
  | [] => none
  | c :: rest =>
    if c.isDigit then some (digitsToNat (c :: rest.takeWhile Char.isDigit))
    else firstNum rest

/-- Case-insensitive character comparison (models `re.IGNORECASE`). -/
def ciEq (a b : Char) : Bool := a.toLower == b.toLower

/-- Case-insensitively strip a literal pattern from the front of a string,
returning the remainder on success. -/
def ciStrip : List Char → List Char → Option (List Char)
  | [], s => some s
  | _ :: _, [] => none
  | p :: ps, c :: cs => if ciEq p c then ciStrip ps cs else none

/-- Case-insensitive equality of two strings. -/
def ciEqList (a b : List Char) : Bool := (ciStrip a b).isSome && a.length == b.length

/-- Membership in the regex character class of the two quote characters
(double quote, and single quote which has code 39). -/
def isQuote (c : Char) : Bool := c == '"' || c.toNat == 39

/- ## Tile coordinate mapper (`latlon_to_tile`, `get_surrounding_tiles`) -/

/-- Python `int()` on a float: truncation toward zero. -/
noncomputable def pyInt (r : ℝ) : ℤ := if 0 ≤ r then ⌊r⌋ else ⌈r⌉

/-- The untruncated x tile coordinate `(lon + 180) / 360 * 2 ** zoom`. -/
noncomputable def tileRawX (lon : ℝ) (zoom : ℕ) : ℝ := (lon + 180) / 360 * 2 ^ zoom

/-- The untruncated y tile coordinate
`(1 - asinh(tan(radians(lat))) / pi) / 2 * 2 ** zoom`. -/
noncomputable def tileRawY (lat : ℝ) (zoom : ℕ) : ℝ :=
  (1 - Real.arsinh (Real.tan (lat * Real.pi / 180)) / Real.pi) / 2 * 2 ^ zoom

/-- `StravaHunter.latlon_to_tile`: truncate both raw tile coordinates with
Python `int()`. -/
noncomputable def latlon_to_tile (lat lon : ℝ) (zoom : ℕ := 13) : ℤ × ℤ :=
  (pyInt (tileRawX lon zoom), pyInt (tileRawY lat zoom))

/-- Python `range(lo, hi)` over integers. -/
def intRange (lo hi : ℤ) : List ℤ :=
  List.map (fun i : ℕ => lo + (i : ℤ)) (List.range (hi - lo).toNat)

/-- `StravaHunter.get_surrounding_tiles`: one tile for a radius of at most
10 km, otherwise the double loop over `range(-tile_radius, tile_radius + 1)`
in both axes, x offset in the outer loop. -/
noncomputable def get_surrounding_tiles (lat lon radius_km : ℝ) (zoom : ℕ := 13) :
    List (ℤ × ℤ) :=
  let tile_radius : ℤ := max 1 (pyInt (radius_km / 10))
  let c := latlon_to_tile lat lon zoom
  if radius_km ≤ 10 then [c]
  else
    (intRange (-tile_radius) (tile_radius + 1)).flatMap fun dx =>
      (intRange (-tile_radius) (tile_radius + 1)).map fun dy => (c.1 + dx, c.2 + dy)

/-- Spec-side description of the claimed tile set: every tile of the inclusive
square of offsets `[-r, r] x [-r, r]` around a centre tile, enumerated
row-major (outer offset first). -/
def tileSquare (c : ℤ × ℤ) (r : ℤ) : List (ℤ × ℤ) :=
  (intRange (-r) (r + 1)).flatMap fun dx =>
    (intRange (-r) (r + 1)).map fun dy => (c.1 + dx, c.2 + dy)

/-- A latitude/longitude pair is valid for the tile grid when both raw tile
coordinates at zoom 13 are nonnegative, i.e. the point lies inside the
spherical-Mercator world square (longitude at least -180 and latitude inside
the Mercator cap). -/
def validLatLon (lat lon : ℝ) : Prop :=
  0 ≤ tileRawX lon 13 ∧ 0 ≤ tileRawY lat 13

theorem intRange_length (lo hi : ℤ) : (intRange lo hi).length = (hi - lo).toNat := by
  rw [intRange, List.length_map, List.length_range]

theorem tileSquare_length (c : ℤ × ℤ) (r : ℤ) :
    (tileSquare c r).length = ((2 * r + 1).toNat) ^ 2 := by
  have h1 : r + 1 - -r = 2 * r + 1 := by ring
  have hlen : (intRange (-r) (r + 1)).length = (2 * r + 1).toNat := by
    rw [intRange_length, h1]
  rw [tileSquare, List.length_flatMap]
  rw [show (List.map (List.length ∘ fun dx =>
        List.map (fun dy => (c.1 + dx, c.2 + dy)) (intRange (-r) (r + 1)))
        (intRange (-r) (r + 1)))
      = List.map (fun _ => (2 * r + 1).toNat) (intRange (-r) (r + 1)) from
    List.map_congr_left fun dx _ => by simp [hlen]]
  rw [List.map_const', List.sum_replicate, hlen, smul_eq_mul, sq]

/- ## Leader stats scraper (`get_leader_stats`) -/

/-- Python exception that the scraping code can raise: dereferencing the
result of a failed `find` call (`NoneType` has no attribute `find`). -/
inductive PyExc where
  | attributeError
deriving DecidableEq

/-- One `td` cell of the leaderboard's first row, as the code observes it:
its stripped text, its `class` attribute list, whether `find` with a class
regex `power` locates a descendant, and whether `find` locates a
`span` descendant with title `Power Meter`. -/
structure Cell where
  text : List Char
  classes : List (List Char)
  findPowerClass : Bool
  findPowerMeterSpan : Bool
deriving DecidableEq

/-- The `table` element with class `table-leaderboard`, as the code observes
it: `tbody` is `none` when the table holds no `tbody` element, otherwise the
list of `tr` rows inside the `tbody`, each given by its list of `td` cells. -/
structure LTable where
  tbody : Option (List (List Cell))
deriving DecidableEq

/-- A fetched segment page: the leaderboard table found by BeautifulSoup (if
any) and the raw page text that the regex fallback searches. -/
structure Page where
  table : Option LTable
  rawHtml : List Char
deriving DecidableEq

/-- The body of the `for cell in cells` loop: update the running
`(hr, power, power_verified)` state from one cell.  Heart rate is taken from
any cell whose text contains `bpm`; power from any cell whose text contains
`W` and that carries a `power` class or a power-classed descendant; the
verified flag is set (never cleared) when such a power cell also holds a
`Power Meter` span. -/
def processCell (st : Option ℕ × Option ℕ × Bool) (cell : Cell) :
    Option ℕ × Option ℕ × Bool :=
  let hr := if decide ("bpm".data <:+: cell.text) then
      match firstNum cell.text with
      | some v => some v
      | none => st.1
    else st.1
  if cell.text.contains 'W' &&
      (cell.classes.contains "power".data || cell.findPowerClass) then
    match firstNum cell.text with
    | some v => (hr, some v, if cell.findPowerMeterSpan then true else st.2.2)
    | none => (hr, st.2.1, st.2.2)
  else (hr, st.2.1, st.2.2)

/-- Tier 1 of the scrape: fold the cell loop over the first data row,
starting from all-absent stats. -/
def tier1Row (cells : List Cell) : Option ℕ × Option ℕ × Bool :=
  cells.foldl processCell (none, none, false)

/-- Match of the literal regex piece matching a title attribute with one of
two quote characters on each side, case-insensitively, at the head of the
string. -/
def titleLitAt (title s : List Char) : Bool :=
  match ciStrip "title=".data s with
  | none => false
  | some s1 =>
    match s1 with
    | [] => false
    | q1 :: s2 =>
      isQuote q1 &&
        (match ciStrip title s2 with
         | none => false
         | some s3 =>
           match s3 with
           | [] => false
           | q2 :: _ => isQuote q2)

/-- Backtracking scan for the regex piece of zero-or-more non-closing-bracket
characters followed by the quoted title attribute: succeeds when some prefix
free of a closing angle bracket is followed by the title literal. -/
def attrScan (title : List Char) : List Char → Bool
  | [] => titleLitAt title []
  | c :: rest => titleLitAt title (c :: rest) || (!(c == '>') && attrScan title rest)

/-- Match, at the head of the string, of the full fallback regex: one or more
digits, the literal open-abbr text, then the scanned title attribute.  Returns
the captured digit group. -/
def numAbbrAt (title s : List Char) : Option ℕ :=
  let digits := s.takeWhile Char.isDigit
  if digits.isEmpty then none
  else
    match ciStrip "<abbr".data (s.dropWhile Char.isDigit) with
    | none => none
    | some r2 => if attrScan title r2 then some (digitsToNat digits) else none

/-- Model of `re.search` for the fallback pattern: try every start position
from the left, returning the first captured digit group. -/
def reSearchNumAbbr (title : List Char) : List Char → Option ℕ
  | [] => none
  | c :: rest =>
    match numAbbrAt title (c :: rest) with
    | some n => some n
    | none => reSearchNumAbbr title rest

/-- Model of `re.search` for the quoted `Power Meter` title marker anywhere in
the page text, case-insensitively. -/
def powerMeterSearch : List Char → Bool
  | [] => false
  | c :: rest => titleLitAt "Power Meter".data (c :: rest) || powerMeterSearch rest

/-- Tier 2 of the scrape (regex fallback over the raw page text): a number
directly followed by a beats-per-minute abbr, a number directly followed by a
watts abbr, and the verified flag only when a power number was found and a
`Power Meter` title occurs anywhere in the page. -/
def regexFallback (html : List Char) : Option ℕ × Option ℕ × Bool :=
  let hr := reSearchNumAbbr "beats per minute".data html
  let power := reSearchNumAbbr "watts".data html
  (hr, power, power.isSome && powerMeterSearch html)

/-- `StravaHunter.get_leader_stats`, given the response status and the fetched
page.  On status 200 the code looks for the leaderboard table; if present it
dereferences `find` of the tbody without a check, so a table without a `tbody`
raises an AttributeError; a first row, when one exists, is parsed by tier 1
and returned; with no table, or a tbody without a row, control falls through
to the regex fallback.  Any other status returns all-absent stats. -/
def get_leader_stats (status : ℕ) (page : Page) :
    Except PyExc (Option ℕ × Option ℕ × Bool) :=
  if status = 200 then
    match page.table with
    | some t =>
      match t.tbody with
      | none => Except.error PyExc.attributeError
      | some rows =>
        match rows with
        | row :: _ => Except.ok (tier1Row row)
        | [] => Except.ok (regexFallback page.rawHtml)
    | none => Except.ok (regexFallback page.rawHtml)
  else Except.ok (none, none, false)

/-- Whether a call of `get_leader_stats` with this status and page reaches the
regex-fallback lines (the code after the leaderboard-table block). -/
def fallbackAttempted (status : ℕ) (page : Page) : Bool :=
  if status = 200 then
    match page.table with
    | some t =>
      match t.tbody with
      | none => false
      | some rows => rows.isEmpty
    | none => true
  else false

/- ## Criteria, segment data and the analysis loop (`analyze_segments`) -/

/-- `SegmentCriteria` dataclass.  Distances are floats (modelled as
rationals), the optional ceilings are ints or None, attempt bounds are ints. -/
structure SegmentCriteria where
  min_distance : ℚ
  max_distance : ℚ
  max_heart_rate : Option ℤ := none
  max_power : Option ℤ := none
  min_attempts : ℤ := 1
  max_attempts : ℤ := 50
deriving DecidableEq

/-- One leaderboard effort from the GraphQL detail response. -/
structure Leader where
  firstName : List Char
  lastName : List Char
  activityId : ℤ
  elapsedTime : ℤ
deriving DecidableEq

/-- One segment record from the GraphQL detail response, with the fields the
loop reads. -/
structure RawSegment where
  id : ℤ
  name : List Char
  distance : ℚ
  totalEfforts : ℤ
  leaderboards : List (List Leader)
deriving DecidableEq

/-- `SegmentData` dataclass. -/
structure SegmentData where
  id : ℤ
  name : List Char
  distance : ℚ
  total_attempts : ℤ
  leader_name : List Char
  leader_time : ℤ
  leader_activity_id : ℤ
  leader_hr : Option ℕ := none
  leader_power : Option ℕ := none
  leader_power_verified : Bool := false
deriving DecidableEq

/-- The leader lookup of the loop body: skip the segment when the
leaderboards list is empty or its first entry has no efforts, otherwise take
the first effort of the first leaderboard. -/
def extractLeader (s : RawSegment) : Option Leader :=
  match s.leaderboards with
  | [] => none
  | efforts :: _ => efforts.head?

/-- Construction of the `SegmentData` value inside the loop body. -/
def mkSegmentData (seg : RawSegment) (leader : Leader) : SegmentData :=
  { id := seg.id
    name := seg.name
    distance := seg.distance
    total_attempts := seg.totalEfforts
    leader_name := leader.firstName ++ ' ' :: leader.lastName
    leader_time := leader.elapsedTime
    leader_activity_id := leader.activityId }

/-- The basic criteria gate: both chained comparisons of the loop,
`min_distance <= distance <= max_distance` and
`min_attempts <= total_attempts <= max_attempts`. -/
def basicGate (c : SegmentCriteria) (distance : ℚ) (attempts : ℤ) : Bool :=
  decide (c.min_distance ≤ distance) && decide (distance ≤ c.max_distance) &&
  decide (c.min_attempts ≤ attempts) && decide (attempts ≤ c.max_attempts)

/-- Python truthiness of an optional int: None and 0 are falsy. -/
def truthyOptInt : Option ℤ → Bool
  | none => false
  | some n => !(n == 0)

/-- Python truthiness of an optional nonnegative int (a scraped value). -/
def truthyOptNat : Option ℕ → Bool
  | none => false
  | some n => !(n == 0)

/-- The heart-rate drop test
`criteria.max_heart_rate and (not hr or hr > criteria.max_heart_rate)`,
with Python truthiness and short-circuiting. -/
def hrDrop (maxHr : Option ℤ) (hr : Option ℕ) : Bool :=
  truthyOptInt maxHr &&
    (!(truthyOptNat hr) ||
      (match maxHr, hr with
       | some m, some v => decide (m < (v : ℤ))
       | _, _ => false))

/-- The power drop test
`criteria.max_power and (not power or power > criteria.max_power)`. -/
def powerDrop (maxPower : Option ℤ) (power : Option ℕ) : Bool :=
  truthyOptInt maxPower &&
    (!(truthyOptNat power) ||
      (match maxPower, power with
       | some m, some v => decide (m < (v : ℤ))
       | _, _ => false))

/-- One iteration of the winnability loop of `analyze_segments`, threading a
state of (scrape calls issued so far, winnable segments so far).  A segment
without a leader is skipped; a segment failing the basic gate is skipped with
no scrape; otherwise `get_leader_stats` is invoked (recorded in the call
trace).  A raising scrape is caught by the per-segment handler and the
candidate is skipped; otherwise the candidate is dropped by the heart-rate or
power test or appended with the scraped stats attached. -/
def analyzeStep (c : SegmentCriteria)
    (stats : ℤ → Except PyExc (Option ℕ × Option ℕ × Bool))
    (st : List ℤ × List SegmentData) (seg : RawSegment) :
    List ℤ × List SegmentData :=
  match extractLeader seg with
  | none => st
  | some leader =>
    let sd := mkSegmentData seg leader
    if basicGate c sd.distance sd.total_attempts then
      let calls := st.1 ++ [sd.id]
      match stats sd.id with
      | Except.error _ => (calls, st.2)
      | Except.ok (hr, power, pv) =>
        if hrDrop c.max_heart_rate hr then (calls, st.2)
        else if powerDrop c.max_power power then (calls, st.2)
        else (calls, st.2 ++ [{ sd with
          leader_hr := hr, leader_power := power, leader_power_verified := pv }])
    else st

/-- The winnability loop of `analyze_segments` over the fetched segment
details, also returning the trace of leaderboard scrape calls in order. -/
def analyze_segments (c : SegmentCriteria)
    (stats : ℤ → Except PyExc (Option ℕ × Option ℕ × Bool))
    (segs : List RawSegment) : List ℤ × List SegmentData :=
  segs.foldl (analyzeStep c stats) ([], [])

/-- The segment ids for which the loop issues a leaderboard scrape: those
with a leader that pass the basic gate, in input order. -/
def scrapedIds (c : SegmentCriteria) (segs : List RawSegment) : List ℤ :=
  (segs.filter fun s =>
    (extractLeader s).isSome && basicGate c s.distance s.totalEfforts).map
    (fun s => s.id)

/-- Deduplication of collected segment ids,
`list(dict.fromkeys(all_segment_ids))`: insert each id into an
insertion-ordered key set, skipping ids already present. -/
def dedupe (xs : List ℤ) : List ℤ :=
  xs.foldl (fun acc x => if x ∈ acc then acc else acc ++ [x]) []

/-- Spec-side description of stable deduplication: keep the first occurrence
of each identifier, in order of first occurrence. -/
def dedupeSpec : List ℤ → List ℤ
  | [] => []
  | x :: xs => x :: dedupeSpec (xs.filter fun y => decide (y ≠ x))
termination_by xs => xs.length
decreasing_by
  exact Nat.lt_succ_of_le (List.length_filter_le _ _)

/- ## Location validation and process exit (`main` / `run_analysis`) -/

/-- ASCII whitespace, for Python `str.strip` and `float` surrounds. -/
def isPyWs (c : Char) : Bool :=
  c == ' ' || c == '\t' || c == '\n' || c == '\r' || c.toNat == 11 || c.toNat == 12

/-- Python `str.strip()`. -/
def pyStrip (s : List Char) : List Char :=
  ((s.dropWhile isPyWs).reverse.dropWhile isPyWs).reverse

/-- Consume the continuation of a digit run in which underscores may appear
only between digits (Python numeric literal rule for `float`), returning the
unconsumed remainder. -/
def digitRunCont : List Char → List Char
  | [] => []
  | [c] => if c.isDigit then [] else [c]
  | c :: d :: rest =>
    if c.isDigit then digitRunCont (d :: rest)
    else if c == '_' && d.isDigit then digitRunCont rest
    else c :: d :: rest

/-- Consume a digit run that must begin with a digit; `none` when the string
does not start with one. -/
def digitRun? (s : List Char) : Option (List Char) :=
  match s with
  | c :: _ => if c.isDigit then some (digitRunCont s) else none
  | [] => none

/-- Consume the mantissa of a Python float literal: integer digits with an
optional fraction, or a leading dot followed by fraction digits. -/
def parseMantissa (s : List Char) : Option (List Char) :=
  match digitRun? s with
  | some rest =>
    match rest with
    | '.' :: rest2 =>
      match digitRun? rest2 with
      | some rest3 => some rest3
      | none => some rest2
    | _ => some rest
  | none =>
    match s with
    | '.' :: rest2 => digitRun? rest2
    | _ => none

/-- Consume an optional well-formed exponent; a malformed exponent is left in
place (and then rejected as trailing junk). -/
def parseExp (s : List Char) : List Char :=
  match s with
  | c :: rest =>
    if c == 'e' || c == 'E' then
      let body := match rest with
        | d :: r2 => if d == '+' || d == '-' then r2 else rest
        | [] => rest
      match digitRun? body with
      | some r3 => r3
      | none => s
    else s
  | [] => []

/-- Drop one optional leading sign. -/
def dropSign : List Char → List Char
  | c :: rest => if c == '+' || c == '-' then rest else c :: rest
  | [] => []

/-- Whether CPython `float()` accepts the string (ASCII grammar: optional
whitespace and sign, then an infinity or nan name or a decimal literal with
optional fraction and exponent and with underscores only between digits).
Only acceptance is modelled: no claim depends on the parsed value. -/
def pyFloatOk (s0 : List Char) : Bool :=
  let b := dropSign (pyStrip s0)
  ciEqList b "inf".data || ciEqList b "infinity".data || ciEqList b "nan".data ||
    (match parseMantissa b with
     | some rest => (parseExp rest).isEmpty
     | none => false)

/-- The location parsing of `run_analysis`:
`lat_str, lon_str = args.location.split(',')` followed by
`float(lat_str.strip())` and `float(lon_str.strip())`.  Returns the two
stripped float strings, or `none` when a ValueError is raised (wrong number
of comma-separated parts, or a part that is not a float). -/
def parseLocation (loc : List Char) : Option (List Char × List Char) :=
  match loc.splitOn ',' with
  | [a, b] =>
    let a2 := pyStrip a
    let b2 := pyStrip b
    if pyFloatOk a2 && pyFloatOk b2 then some (a2, b2) else none
  | _ => none

/-- Observable events of `run_analysis` relevant to the validation claim. -/
inductive Event where
  | invalidLocationError
  | printSearchBanner
  | printTileCount
  | networkRequest
deriving DecidableEq

/-- The event trace of `run_analysis` for a given location argument,
parameterised by whatever events the downstream network analysis would emit:
a ValueError from the location parse is caught, the error message is printed
and the coroutine returns before `analyze_segments` runs; otherwise the two
banners are printed and the analysis (the only network activity) follows. -/
def run_analysis_trace (loc : List Char) (networkPhase : List Event) : List Event :=
  match parseLocation loc with
  | none => [Event.invalidLocationError]
  | some _ => Event.printSearchBanner :: Event.printTileCount :: networkPhase

/-- The process exit status of `main` as a function of the location argument:
`run_analysis` returns `None` both from the invalid-location branch (plain
`return` after printing) and from normal completion, `asyncio.run` then
finishes and `main` falls off the end, so the interpreter exits with 0 in
both cases; no `sys.exit` call exists in the source. -/
def mainExit (loc : List Char) : ℕ :=
  match parseLocation loc with
  | none => 0
  | some _ => 0

/- ## Export of winnable segments (`--output` block of `run_analysis`) -/

/-- Decimal digit characters of a natural number, most significant first,
with structural fuel (`fuel` at least the number itself). -/
def natToCharsRec (fuel : ℕ) (n : ℕ) : List Char :=
  match fuel with
  | 0 => []
  | fuel + 1 =>
    if n = 0 then []
    else natToCharsRec fuel (n / 10) ++ [Nat.digitChar (n % 10)]

/-- Python `str` of a nonnegative int. -/
def natToChars (n : ℕ) : List Char :=
  if n = 0 then ['0'] else natToCharsRec n n

/-- Python `str` of an int (decimal, minus sign for negatives). -/
def intToChars : ℤ → List Char
  | Int.ofNat n => natToChars n
  | Int.negSucc n => '-' :: natToChars (n + 1)

/-- Parse a nonempty all-digit string back to a natural number. -/
def parseNatChars (s : List Char) : Option ℕ :=
  if s.isEmpty then none
  else if s.all Char.isDigit then some (digitsToNat s) else none

/-- Parse a decimal integer string (optional leading minus) back to an int. -/
def parseIntChars (s : List Char) : Option ℤ :=
  match s with
  | [] => none
  | c :: rest =>
    if c == '-' then (parseNatChars rest).map (fun n => -(n : ℤ))
    else (parseNatChars (c :: rest)).map (fun n => (n : ℤ))

/-- The segment page base URL used by the export and the display table. -/
def segmentsBaseUrl : List Char := "https://www.strava.com/segments".data

/-- The persisted JSON object written for one winnable segment: the dict
built in the `--output` block, with `id` stringified and `url` derived from
the id. -/
structure ExportedSegment where
  id : List Char
  name : List Char
  distance : ℚ
  total_attempts : ℤ
  leader_name : List Char
  leader_time : ℤ
  leader_hr : Option ℕ
  leader_power : Option ℕ
  leader_power_verified : Bool
  url : List Char
deriving DecidableEq

/-- The dict comprehension of the `--output` block for one segment. -/
def exportSegment (s : SegmentData) : ExportedSegment :=
  { id := intToChars s.id
    name := s.name
    distance := s.distance
    total_attempts := s.total_attempts
    leader_name := s.leader_name
    leader_time := s.leader_time
    leader_hr := s.leader_hr
    leader_power := s.leader_power
    leader_power_verified := s.leader_power_verified
    url := "https://www.strava.com/segments/".data ++ intToChars s.id }

/-- Zero-padded two-digit formatting of the seconds field (Python `:02d` on
the nonnegative remainder). -/
def pad2 (s : ℤ) : List Char :=
  let t := intToChars s
  if t.length < 2 then '0' :: t else t

/-- The `minutes:seconds` display string of the results table: Python
floor-division `leader_time // 60` and nonnegative remainder
`leader_time % 60`, which for the positive divisor 60 coincide with the
Euclidean division and remainder of the integers. -/
def timeDisplay (t : ℤ) : List Char :=
  intToChars (t / 60) ++ ':' :: pad2 (t % 60)

/- ## Helper lemmas -/

theorem processCell_pv_isSome (st : Option ℕ × Option ℕ × Bool) (cell : Cell)
    (h : st.2.2 = true → st.2.1.isSome = true) :
    (processCell st cell).2.2 = true → (processCell st cell).2.1.isSome = true := by
  unfold processCell
  by_cases hw : (cell.text.contains 'W' &&
      (cell.classes.contains "power".data || cell.findPowerClass)) = true
  · rw [if_pos hw]
    cases hn : firstNum cell.text with
    | none => simpa using h
    | some v => simp
  · rw [if_neg hw]
    simpa using h

theorem tier1Row_pv_isSome (cells : List Cell) :
    (tier1Row cells).2.2 = true → (tier1Row cells).2.1.isSome = true := by
  have main : ∀ (l : List Cell) (st : Option ℕ × Option ℕ × Bool),
      (st.2.2 = true → st.2.1.isSome = true) →
      ((l.foldl processCell st).2.2 = true → (l.foldl processCell st).2.1.isSome = true) := by
    intro l
    induction l with
    | nil => intro st h; simpa using h
    | cons c rest ih =>
      intro st h
      rw [List.foldl_cons]
      exact ih _ (processCell_pv_isSome st c h)
  exact main _ (none, none, false) (by simp)

theorem regexFallback_pv_isSome (html : List Char) :
    (regexFallback html).2.2 = true → (regexFallback html).2.1.isSome = true := by
  unfold regexFallback
  cases reSearchNumAbbr "watts".data html <;> simp

/- ## Claim theorems -/

/-- C10: every stats triple actually returned by `get_leader_stats` (tier 1,
regex fallback, or the non-200 path) satisfies the invariant that a true
power-verified flag comes with a present power value. -/
theorem C10_power_verified_implies_power (status : ℕ) (page : Page)
    (hr power : Option ℕ) (pv : Bool)
    (h : get_leader_stats status page = Except.ok (hr, power, pv))
    (hpv : pv = true) : power.isSome = true := by
  subst hpv
  unfold get_leader_stats at h
  split at h
  · split at h
    · split at h
      · exact absurd h (by simp)
      · split at h
        · have h2 := Except.ok.inj h
          rw [show power = (hr, power, true).2.1 from rfl, ← h2]
          exact tier1Row_pv_isSome _ (by rw [h2])
        · have h2 := Except.ok.inj h
          rw [show power = (hr, power, true).2.1 from rfl, ← h2]
          exact regexFallback_pv_isSome _ (by rw [h2])
    · have h2 := Except.ok.inj h
      rw [show power = (hr, power, true).2.1 from rfl, ← h2]
      exact regexFallback_pv_isSome _ (by rw [h2])
  · have h2 := Except.ok.inj h
    simp at h2

/-- Witness for C10: a 200 page whose leaderboard first row holds a power
cell with a power class, the number 320 and a Power Meter span produces the
triple with power 320 and a true verified flag, so the invariant applies. -/
theorem C10_power_verified_implies_power_witness : (some 320 : Option ℕ).isSome = true :=
  C10_power_verified_implies_power 200
    ⟨some ⟨some [[⟨"320W".data, ["power".data], false, true⟩]]⟩, []⟩
    none (some 320) true rfl rfl

/-- C2 (amended): `get_leader_stats` returns all-absent stats on every
non-200 response, and the only way it raises is an AttributeError on a 200
page whose leaderboard table has no `tbody`; when a gated candidate's scrape
raises, the per-segment handler of `analyze_segments` catches it and the
candidate is skipped while the pipeline continues. -/
theorem C2_scrape_error_behaviour (status : ℕ) (page : Page) :
    (status ≠ 200 → get_leader_stats status page = Except.ok (none, none, false)) ∧
    (get_leader_stats status page = Except.error PyExc.attributeError ↔
      status = 200 ∧ page.table = some ⟨none⟩) ∧
    (∀ (c : SegmentCriteria) (stats : ℤ → Except PyExc (Option ℕ × Option ℕ × Bool))
       (st : List ℤ × List SegmentData) (seg : RawSegment) (leader : Leader) (e : PyExc),
       extractLeader seg = some leader →
       basicGate c seg.distance seg.totalEfforts = true →
       stats seg.id = Except.error e →
       analyzeStep c stats st seg = (st.1 ++ [seg.id], st.2)) := by
  refine ⟨?_, ?_, ?_⟩
  · intro hs
    unfold get_leader_stats
    rw [if_neg hs]
  · obtain ⟨tab, raw⟩ := page
    unfold get_leader_stats
    by_cases hs : status = 200
    · rw [if_pos hs]
      subst hs
      cases tab with
      | none => simp
      | some t =>
        obtain ⟨tb⟩ := t
        cases tb with
        | none => simp
        | some rows => cases rows <;> simp
    · rw [if_neg hs]
      simp [hs]
  · intro c stats st seg leader e hE hg hs
    unfold analyzeStep
    rw [hE]
    have hg2 : basicGate c (mkSegmentData seg leader).distance
        (mkSegmentData seg leader).total_attempts = true := hg
    simp only [hg2, if_true]
    have hid : (mkSegmentData seg leader).id = seg.id := rfl
    rw [hid, hs]

/-- Witness for C2: a 404 response yields the all-absent stats triple. -/
theorem C2_scrape_error_behaviour_witness :
    get_leader_stats 404 ⟨none, []⟩ = Except.ok (none, none, false) :=
  (C2_scrape_error_behaviour 404 ⟨none, []⟩).1 (by decide)

/-- Counterexample to C2 as stated: a 200 response whose HTML contains a
leaderboard table without a `tbody` element makes `get_leader_stats` raise an
AttributeError instead of returning the all-absent stats. -/
theorem C2_scrape_raises_counterexample :
    get_leader_stats 200 ⟨some ⟨none⟩, []⟩ = Except.error PyExc.attributeError :=
  rfl

/-- C3 (amended): the regex fallback runs exactly when the response is a 200
whose page has no leaderboard table at all, or has one whose `tbody` contains
no row; whenever it runs, its result is the returned one; and a page whose
table has a `tbody` with a first row always returns the tier-1 parse of that
row with the fallback never attempted. -/
theorem C3_fallback_condition (status : ℕ) (page : Page) :
    (fallbackAttempted status page = true ↔
      status = 200 ∧ (page.table = none ∨ page.table = some ⟨some []⟩)) ∧
    (fallbackAttempted status page = true →
      get_leader_stats status page = Except.ok (regexFallback page.rawHtml)) ∧
    (∀ (t : LTable) (row : List Cell) (rest : List (List Cell)),
      status = 200 → page.table = some t → t.tbody = some (row :: rest) →
      get_leader_stats status page = Except.ok (tier1Row row) ∧
      fallbackAttempted status page = false) := by
  obtain ⟨tab, raw⟩ := page
  by_cases hs : status = 200
  · subst hs
    refine ⟨?_, ?_, ?_⟩
    · cases tab with
      | none => simp [fallbackAttempted]
      | some t =>
        obtain ⟨tb⟩ := t
        cases tb with
        | none => simp [fallbackAttempted]
        | some rows => cases rows <;> simp [fallbackAttempted]
    · cases tab with
      | none => intro _; rfl
      | some t =>
        obtain ⟨tb⟩ := t
        cases tb with
        | none => intro h; exact absurd h (by simp [fallbackAttempted])
        | some rows =>
          cases rows with
          | nil => intro _; rfl
          | cons r rs => intro h; exact absurd h (by simp [fallbackAttempted])
    · intro t row rest _ htab htb
      subst htab
      obtain ⟨tb⟩ := t
      cases htb
      exact ⟨rfl, rfl⟩
  · refine ⟨?_, ?_, ?_⟩
    · simp [fallbackAttempted, hs]
    · intro h
      exact absurd h (by simp [fallbackAttempted, hs])
    · intro t row rest h
      exact absurd h hs

/-- Witness for C3: a table whose tbody has one (empty) row returns the
tier-1 result with the fallback not attempted. -/
theorem C3_fallback_condition_witness :
    get_leader_stats 200 ⟨some ⟨some [[]]⟩, []⟩ = Except.ok (tier1Row []) ∧
    fallbackAttempted 200 ⟨some ⟨some [[]]⟩, []⟩ = false :=
  (C3_fallback_condition 200 ⟨some ⟨some [[]]⟩, []⟩).2.2 ⟨some [[]]⟩ [] [] rfl rfl rfl

/-- Counterexample to C3 as stated: a 200 page that does contain a
leaderboard table (with an empty `tbody`) still reaches the regex fallback,
so the fallback is not used only when no table is found. -/
theorem C3_fallback_with_table_counterexample :
    fallbackAttempted 200 ⟨some ⟨some []⟩, "x".data⟩ = true ∧
    (⟨some ⟨some []⟩, "x".data⟩ : Page).table ≠ none := by
  exact ⟨rfl, by simp⟩

/-- C4 (amended): an unparseable location aborts `run_analysis` before any
network request, whatever the downstream analysis would have done, with the
error message as the only emitted event; the process then exits with status
0 (a plain `return` after printing, not a non-zero exit). -/
theorem C4_invalid_location_aborts (loc : List Char) (networkPhase : List Event)
    (h : parseLocation loc = none) :
    run_analysis_trace loc networkPhase = [Event.invalidLocationError] ∧
    Event.networkRequest ∉ run_analysis_trace loc networkPhase ∧
    mainExit loc = 0 := by
  refine ⟨?_, ?_, ?_⟩
  · rw [run_analysis_trace, h]
  · rw [run_analysis_trace, h]
    simp
  · rw [mainExit, h]

/-- Witness for C4: the location string `abc` is rejected and the coroutine
aborts with only the error event, exiting with 0. -/
theorem C4_invalid_location_aborts_witness :
    run_analysis_trace "abc".data [Event.networkRequest] = [Event.invalidLocationError] ∧
    Event.networkRequest ∉ run_analysis_trace "abc".data [Event.networkRequest] ∧
    mainExit "abc".data = 0 :=
  C4_invalid_location_aborts "abc".data [Event.networkRequest] (by decide)

/-- Counterexample to C4 as stated: for the unparseable location `abc` the
process exit status is 0, not non-zero. -/
theorem C4_exit_zero_counterexample :
    parseLocation "abc".data = none ∧ mainExit "abc".data = 0 := by
  exact ⟨by decide, by decide⟩

/-- C5 (amended): with a ceiling set to a nonzero value, a gated candidate is
dropped exactly when the scraped value is absent, zero (Python falsy), or
strictly above the ceiling; a ceiling set to 0 disables the check entirely
(Python truthiness of the criteria field), as does an unset ceiling.  The
drop tests are exactly the ones applied by the loop of `analyze_segments`:
for a candidate passing the basic gate with a non-raising scrape, the
candidate is appended if and only if neither drop test fires. -/
theorem C5_biometric_drop (m : ℤ) (hr power : Option ℕ) :
    (hrDrop (some m) hr = true ↔
      m ≠ 0 ∧ (hr = none ∨ hr = some 0 ∨ ∃ v, hr = some v ∧ m < (v : ℤ))) ∧
    hrDrop none hr = false ∧
    (powerDrop (some m) power = true ↔
      m ≠ 0 ∧ (power = none ∨ power = some 0 ∨ ∃ v, power = some v ∧ m < (v : ℤ))) ∧
    powerDrop none power = false ∧
    (∀ (c : SegmentCriteria) (stats : ℤ → Except PyExc (Option ℕ × Option ℕ × Bool))
       (st : List ℤ × List SegmentData) (seg : RawSegment) (leader : Leader) (pv : Bool),
       extractLeader seg = some leader →
       basicGate c seg.distance seg.totalEfforts = true →
       stats seg.id = Except.ok (hr, power, pv) →
       (analyzeStep c stats st seg).2 =
         (if hrDrop c.max_heart_rate hr || powerDrop c.max_power power then st.2
          else st.2 ++ [{ mkSegmentData seg leader with
            leader_hr := hr, leader_power := power, leader_power_verified := pv }])) := by
  refine ⟨?_, ?_, ?_, ?_, ?_⟩
  · cases hr with
    | none => simp [hrDrop, truthyOptInt, truthyOptNat]
    | some v =>
      by_cases hv : v = 0
      · subst hv; simp [hrDrop, truthyOptInt, truthyOptNat]
      · simp [hrDrop, truthyOptInt, truthyOptNat, hv]
  · simp [hrDrop, truthyOptInt]
  · cases power with
    | none => simp [powerDrop, truthyOptInt, truthyOptNat]
    | some v =>
      by_cases hv : v = 0
      · subst hv; simp [powerDrop, truthyOptInt, truthyOptNat]
      · simp [powerDrop, truthyOptInt, truthyOptNat, hv]
  · simp [powerDrop, truthyOptInt]
  · intro c stats st seg leader pv hE hg hs
    unfold analyzeStep
    rw [hE]
    have hg2 : basicGate c (mkSegmentData seg leader).distance
        (mkSegmentData seg leader).total_attempts = true := hg
    simp only [hg2, if_true]
    have hid : (mkSegmentData seg leader).id = seg.id := rfl
    rw [hid, hs]
    by_cases h1 : hrDrop c.max_heart_rate hr
    · simp [h1]
    · by_cases h2 : powerDrop c.max_power power
      · simp [h1, h2]
      · simp [h1, h2]

/-- Witness for C5: with ceiling 200 a present heart rate of 150 is kept and
an absent one is dropped, through the loop's drop test. -/
theorem C5_biometric_drop_witness :
    hrDrop (some 200) (some 150) = false ∧ hrDrop (some 200) none = true := by
  constructor
  · have h := (C5_biometric_drop 200 (some 150) none).1
    by_contra hb
    simp only [Bool.not_eq_false] at hb
    obtain ⟨-, h2⟩ := h.mp hb
    rcases h2 with h2 | h2 | ⟨v, hv, hlt⟩
    · exact Option.noConfusion h2
    · exact absurd (Option.some.inj h2) (by decide)
    · cases Option.some.inj hv; omega
  · have h := (C5_biometric_drop 200 none none).1
    exact h.mpr ⟨by decide, Or.inl rfl⟩

/-- Counterexample to C5 as stated: with ceiling 200, a scraped heart rate of
0 is present and does not exceed the ceiling, yet the candidate is dropped
(Python treats the 0 value as falsy, i.e. as missing). -/
theorem C5_zero_value_counterexample :
    hrDrop (some 200) (some 0) = true ∧
    ¬((some 0 : Option ℕ) = none ∨ (200 : ℤ) < ((0 : ℕ) : ℤ)) := by
  exact ⟨by decide, by decide⟩

/-- C6: the basic gate keeps a detail exactly when the distance and attempt
counts lie inside the inclusive criteria bounds; a detail at exactly the
maximum distance passes (given the other bounds hold) and any strictly
greater distance fails. -/
theorem C6_basic_gate_inclusive (c : SegmentCriteria) (d : ℚ) (a : ℤ) :
    (basicGate c d a = true ↔
      c.min_distance ≤ d ∧ d ≤ c.max_distance ∧
      c.min_attempts ≤ a ∧ a ≤ c.max_attempts) ∧
    (c.min_distance ≤ c.max_distance → c.min_attempts ≤ a → a ≤ c.max_attempts →
      basicGate c c.max_distance a = true) ∧
    (c.max_distance < d → basicGate c d a = false) := by
  refine ⟨?_, ?_, ?_⟩
  · simp [basicGate, and_assoc]
  · intro h1 h2 h3
    simp [basicGate, h1, h2, h3, le_refl]
  · intro h
    simp [basicGate, not_le.mpr h]

/-- Witness for C6: with bounds 500 to 2000 m and 1 to 50 attempts, a
2000 m detail with 20 attempts passes the gate and a 2001 m detail fails. -/
theorem C6_basic_gate_inclusive_witness :
    basicGate ⟨500, 2000, none, none, 1, 50⟩ 2000 20 = true ∧
    basicGate ⟨500, 2000, none, none, 1, 50⟩ 2001 20 = false :=
  ⟨(C6_basic_gate_inclusive ⟨500, 2000, none, none, 1, 50⟩ 2000 20).2.1
      (by norm_num) (by norm_num) (by norm_num),
   (C6_basic_gate_inclusive ⟨500, 2000, none, none, 1, 50⟩ 2001 20).2.2 (by norm_num)⟩

theorem dedupeSpec_cons (x : ℤ) (l : List ℤ) :
    dedupeSpec (x :: l) = x :: dedupeSpec (l.filter fun y => decide (y ≠ x)) := by
  simp only [dedupeSpec]

theorem dedupe_foldl_eq (xs : List ℤ) : ∀ acc : List ℤ,
    xs.foldl (fun acc x => if x ∈ acc then acc else acc ++ [x]) acc =
      acc ++ dedupeSpec (xs.filter fun y => decide (y ∉ acc)) := by
  induction xs with
  | nil => intro acc; simp [dedupeSpec]
  | cons x rest ih =>
    intro acc
    rw [List.foldl_cons, List.filter_cons]
    by_cases hx : x ∈ acc
    · rw [if_pos hx, if_neg (show ¬(decide (x ∉ acc) = true) by simp [hx])]
      exact ih acc
    · rw [if_neg hx, if_pos (show decide (x ∉ acc) = true by simp [hx])]
      rw [ih (acc ++ [x]), dedupeSpec_cons, List.filter_filter]
      have hpt : (rest.filter fun y => decide (y ∉ acc ++ [x])) =
          rest.filter fun a => decide (a ≠ x) && decide (a ∉ acc) := by
        apply List.filter_congr
        intro y _
        by_cases h1 : y ∈ acc <;> by_cases h2 : y = x <;>
          simp [h1, h2, List.mem_append]
      rw [hpt, List.append_assoc, List.singleton_append]

theorem dedupe_eq_spec (xs : List ℤ) : dedupe xs = dedupeSpec xs := by
  rw [dedupe, dedupe_foldl_eq xs [], List.nil_append]
  congr 1
  apply List.filter_eq_self.mpr
  intro a _
  simp

theorem mem_of_mem_dedupeSpec : ∀ (xs : List ℤ) {y : ℤ}, y ∈ dedupeSpec xs → y ∈ xs := by
  intro xs
  induction xs using dedupeSpec.induct with
  | case1 =>
    intro y h
    simp [dedupeSpec] at h
  | case2 x l ih =>
    intro y h
    rw [dedupeSpec_cons] at h
    rcases List.mem_cons.mp h with rfl | h2
    · exact List.mem_cons_self _ _
    · exact List.mem_cons_of_mem _ (List.mem_of_mem_filter (ih h2))

theorem dedupeSpec_nodup : ∀ xs : List ℤ, (dedupeSpec xs).Nodup := by
  intro xs
  induction xs using dedupeSpec.induct with
  | case1 => simp [dedupeSpec]
  | case2 x l ih =>
    rw [dedupeSpec_cons]
    refine List.nodup_cons.mpr ⟨?_, ih⟩
    intro hmem
    have h2 := List.of_mem_filter (mem_of_mem_dedupeSpec _ hmem)
    simp at h2

/-- C7: deduplication of the collected segment ids equals the stable
first-occurrence deduplication (no repeats, first occurrences in input
order), and on the claimed example keeps 5, 3, 7. -/
theorem C7_dedupe_first_occurrences :
    (∀ xs : List ℤ, dedupe xs = dedupeSpec xs ∧ (dedupe xs).Nodup) ∧
    dedupe [5, 3, 5, 3, 7] = [5, 3, 7] := by
  refine ⟨fun xs => ⟨dedupe_eq_spec xs, ?_⟩, by decide⟩
  rw [dedupe_eq_spec]
  exact dedupeSpec_nodup xs

theorem analyzeStep_calls (c : SegmentCriteria)
    (stats : ℤ → Except PyExc (Option ℕ × Option ℕ × Bool))
    (st : List ℤ × List SegmentData) (seg : RawSegment) :
    (analyzeStep c stats st seg).1 =
      st.1 ++ (if (extractLeader seg).isSome &&
        basicGate c seg.distance seg.totalEfforts then [seg.id] else []) := by
  unfold analyzeStep
  cases hE : extractLeader seg with
  | none => simp
  | some leader =>
    simp only [Option.isSome_some, Bool.true_and]
    have hd : (mkSegmentData seg leader).distance = seg.distance := rfl
    have ha : (mkSegmentData seg leader).total_attempts = seg.totalEfforts := rfl
    have hid : (mkSegmentData seg leader).id = seg.id := rfl
    rw [hd, ha, hid]
    by_cases hg : basicGate c seg.distance seg.totalEfforts
    · rw [if_pos hg, if_pos hg]
      cases stats seg.id with
      | error e => rfl
      | ok r =>
        obtain ⟨hr, pw, pv⟩ := r
        by_cases h1 : hrDrop c.max_heart_rate hr
        · simp [h1]
        · by_cases h2 : powerDrop c.max_power pw <;> simp [h1, h2]
    · rw [if_neg hg, if_neg hg]
      simp

theorem analyze_calls_aux (c : SegmentCriteria)
    (stats : ℤ → Except PyExc (Option ℕ × Option ℕ × Bool)) :
    ∀ (segs : List RawSegment) (st : List ℤ × List SegmentData),
      (segs.foldl (analyzeStep c stats) st).1 = st.1 ++ scrapedIds c segs := by
  intro segs
  induction segs with
  | nil => intro st; simp [scrapedIds]
  | cons s rest ih =>
    intro st
    rw [List.foldl_cons, ih]
    rw [show (analyzeStep c stats st s).1 =
        st.1 ++ (if (extractLeader s).isSome &&
          basicGate c s.distance s.totalEfforts then [s.id] else []) from
      analyzeStep_calls c stats st s]
    unfold scrapedIds
    rw [List.filter_cons]
    by_cases hp : ((extractLeader s).isSome && basicGate c s.distance s.totalEfforts) = true
    · rw [if_pos hp, if_pos hp, List.map_cons, List.append_assoc, List.singleton_append]
    · rw [if_neg hp, if_neg (by simpa using hp), List.append_nil]

/-- C8: the trace of leaderboard scrape calls issued by the analysis loop is
exactly the ids of the details that have a leader and pass the basic gate, in
the order they survive it: a detail failing the basic gate never triggers a
scrape. -/
theorem C8_lazy_enrichment (c : SegmentCriteria)
    (stats : ℤ → Except PyExc (Option ℕ × Option ℕ × Bool))
    (segs : List RawSegment) :
    (analyze_segments c stats segs).1 = scrapedIds c segs := by
  rw [analyze_segments, analyze_calls_aux c stats segs ([], []), List.nil_append]

theorem digitChar_isDigit {d : ℕ} (h : d < 10) : (Nat.digitChar d).isDigit = true := by
  interval_cases d <;> decide

theorem digitChar_val {d : ℕ} (h : d < 10) : (Nat.digitChar d).toNat - 48 = d := by
  interval_cases d <;> decide

theorem natToCharsRec_all_digits :
    ∀ (fuel n : ℕ), (natToCharsRec fuel n).all Char.isDigit = true := by
  intro fuel
  induction fuel with
  | zero => intro n; rfl
  | succ f ih =>
    intro n
    unfold natToCharsRec
    by_cases hn : n = 0
    · rw [if_pos hn]; rfl
    · rw [if_neg hn, List.all_append, ih (n / 10)]
      simp [digitChar_isDigit (Nat.mod_lt n (by norm_num))]

theorem natToCharsRec_decode :
    ∀ (fuel n : ℕ), n ≤ fuel → ∀ acc : ℕ,
      (natToCharsRec fuel n).foldl (fun a c => 10 * a + (c.toNat - 48)) acc =
        acc * 10 ^ (natToCharsRec fuel n).length + n := by
  intro fuel
  induction fuel with
  | zero =>
    intro n hn acc
    interval_cases n
    simp [natToCharsRec]
  | succ f ih =>
    intro n hn acc
    unfold natToCharsRec
    by_cases hn0 : n = 0
    · rw [if_pos hn0, hn0]
      simp
    · rw [if_neg hn0]
      have hdiv : n / 10 ≤ f := by
        have := Nat.div_lt_self (Nat.pos_of_ne_zero hn0) (by norm_num : (1:ℕ) < 10)
        omega
      rw [List.foldl_append, ih (n / 10) hdiv acc, List.length_append]
      simp only [List.foldl_cons, List.foldl_nil, List.length_cons, List.length_nil]
      rw [digitChar_val (Nat.mod_lt n (by norm_num))]
      have : 10 * (acc * 10 ^ (natToCharsRec f (n / 10)).length + n / 10) + n % 10 =
          acc * (10 ^ (natToCharsRec f (n / 10)).length * 10) +
            (10 * (n / 10) + n % 10) := by ring
      rw [this, Nat.div_add_mod, pow_succ]

theorem natToChars_ne_nil (n : ℕ) : natToChars n ≠ [] := by
  unfold natToChars
  by_cases hn : n = 0
  · rw [if_pos hn]; exact List.cons_ne_nil _ _
  · rw [if_neg hn]
    obtain ⟨m, rfl⟩ : ∃ m, n = m + 1 := ⟨n - 1, by omega⟩
    unfold natToCharsRec
    rw [if_neg hn]
    simp

theorem natToChars_all_digits (n : ℕ) : (natToChars n).all Char.isDigit = true := by
  unfold natToChars
  by_cases hn : n = 0
  · rw [if_pos hn]; rfl
  · rw [if_neg hn]; exact natToCharsRec_all_digits n n

theorem digitsToNat_natToChars (n : ℕ) : digitsToNat (natToChars n) = n := by
  unfold natToChars digitsToNat
  by_cases hn : n = 0
  · rw [if_pos hn, hn]; rfl
  · rw [if_neg hn]
    have := natToCharsRec_decode n n le_rfl 0
    rw [this]
    simp

theorem parseNatChars_natToChars (n : ℕ) : parseNatChars (natToChars n) = some n := by
  unfold parseNatChars
  rw [if_neg (by simpa using natToChars_ne_nil n)]
  rw [if_pos (natToChars_all_digits n), digitsToNat_natToChars]

theorem natToChars_head_digit (n : ℕ) :
    ∀ c rest, natToChars n = c :: rest → c.isDigit = true := by
  intro c rest hc
  have h := natToChars_all_digits n
  rw [hc, List.all_cons] at h
  exact (Bool.and_eq_true_iff.mp h).1

theorem parseIntChars_intToChars (z : ℤ) : parseIntChars (intToChars z) = some z := by
  cases z with
  | ofNat n =>
    rw [show intToChars (Int.ofNat n) = natToChars n from rfl]
    obtain ⟨c, rest, hc⟩ : ∃ c rest, natToChars n = c :: rest := by
      cases hx : natToChars n with
      | nil => exact absurd hx (natToChars_ne_nil n)
      | cons c rest => exact ⟨c, rest, rfl⟩
    rw [hc]
    have hdig := natToChars_head_digit n c rest hc
    rw [show parseIntChars (c :: rest) =
        (if c == '-' then (parseNatChars rest).map (fun k => -(k : ℤ))
         else (parseNatChars (c :: rest)).map (fun k => (k : ℤ))) from rfl]
    rw [if_neg (by
      intro hcm
      have hcm2 : c = '-' := by simpa using hcm
      rw [hcm2] at hdig
      exact absurd hdig (by decide))]
    rw [← hc, parseNatChars_natToChars]
    rfl
  | negSucc n =>
    rw [show intToChars (Int.negSucc n) = '-' :: natToChars (n + 1) from rfl]
    rw [show parseIntChars ('-' :: natToChars (n + 1)) =
        (parseNatChars (natToChars (n + 1))).map (fun k => -(k : ℤ)) from rfl]
    rw [parseNatChars_natToChars]
    simp [Int.negSucc_eq]

/-- C9: the persisted JSON object for a winnable segment carries every field
of the segment unchanged except `id`, which becomes the decimal string of the
integer id (and parses back to it); the exported url is the segment base URL
followed by a slash and the id; and for nonnegative leader times the display
string is built from the floor quotient and the zero-padded remainder by 60,
which reconstruct the time exactly, with 125 seconds shown as 2:05. -/
theorem C9_export_roundtrip (s : SegmentData) (t : ℤ) (_ht : 0 ≤ t) :
    (exportSegment s).id = intToChars s.id ∧
    parseIntChars (exportSegment s).id = some s.id ∧
    (exportSegment s).name = s.name ∧
    (exportSegment s).distance = s.distance ∧
    (exportSegment s).total_attempts = s.total_attempts ∧
    (exportSegment s).leader_name = s.leader_name ∧
    (exportSegment s).leader_time = s.leader_time ∧
    (exportSegment s).leader_hr = s.leader_hr ∧
    (exportSegment s).leader_power = s.leader_power ∧
    (exportSegment s).leader_power_verified = s.leader_power_verified ∧
    (exportSegment s).url = segmentsBaseUrl ++ '/' :: intToChars s.id ∧
    timeDisplay t = intToChars (t / 60) ++ ':' :: pad2 (t % 60) ∧
    60 * (t / 60) + t % 60 = t ∧
    0 ≤ t % 60 ∧ t % 60 < 60 ∧
    timeDisplay 125 = "2:05".data := by
  refine ⟨rfl, ?_, rfl, rfl, rfl, rfl, rfl, rfl, rfl, rfl, ?_, rfl, ?_, ?_, ?_, by decide⟩
  · rw [show (exportSegment s).id = intToChars s.id from rfl]
    exact parseIntChars_intToChars s.id
  · rw [show (exportSegment s).url =
        "https://www.strava.com/segments/".data ++ intToChars s.id from rfl]
    rw [show ("https://www.strava.com/segments/".data : List Char) =
        segmentsBaseUrl ++ ['/'] from by decide]
    rw [List.append_assoc, List.singleton_append]
  · exact Int.ediv_add_emod t 60
  · exact Int.emod_nonneg t (by norm_num)
  · exact Int.emod_lt_of_pos t (by norm_num)

/-- Witness for C9: a concrete exported segment whose stringified id parses
back to 12345, with the 125-second leader time displayed as 2:05. -/
theorem C9_export_roundtrip_witness :
    parseIntChars (exportSegment ⟨12345, "Seg".data, 1500, 20, "A B".data, 125, 99,
      some 150, some 300, true⟩).id = some 12345 ∧
    timeDisplay 125 = "2:05".data := by
  obtain ⟨-, h2, -, -, -, -, -, -, -, -, -, -, -, -, -, h16⟩ :=
    C9_export_roundtrip ⟨12345, "Seg".data, 1500, 20, "A B".data, 125, 99,
      some 150, some 300, true⟩ 125 (by norm_num)
  exact ⟨h2, h16⟩

/-- C1: for a point inside the tile grid, `latlon_to_tile` is exactly the
floor-formula base tile; a radius of at most 10 km yields exactly that single
tile; a larger radius yields the full inclusive square of side
`2 * max(1, floor(radius / 10)) + 1` around the base tile in row-major
order, hence `(2 * max(1, floor(radius / 10)) + 1) ^ 2` tiles; and radius 25
yields exactly 25 tiles. -/
theorem C1_tile_mapper (lat lon radius : ℝ) (hv : validLatLon lat lon) :
    latlon_to_tile lat lon 13 = (⌊tileRawX lon 13⌋, ⌊tileRawY lat 13⌋) ∧
    (radius ≤ 10 → get_surrounding_tiles lat lon radius 13 = [latlon_to_tile lat lon 13]) ∧
    (10 < radius →
      get_surrounding_tiles lat lon radius 13 =
        tileSquare (latlon_to_tile lat lon 13) (max 1 ⌊radius / 10⌋) ∧
      (get_surrounding_tiles lat lon radius 13).length =
        ((2 * max 1 ⌊radius / 10⌋ + 1).toNat) ^ 2) ∧
    (radius = 25 → (get_surrounding_tiles lat lon radius 13).length = 25) := by
  obtain ⟨hx, hy⟩ := hv
  have hbase : latlon_to_tile lat lon 13 = (⌊tileRawX lon 13⌋, ⌊tileRawY lat 13⌋) := by
    unfold latlon_to_tile pyInt
    rw [if_pos hx, if_pos hy]
  have hsq : ∀ r : ℝ, 10 < r →
      get_surrounding_tiles lat lon r 13 =
        tileSquare (latlon_to_tile lat lon 13) (max 1 ⌊r / 10⌋) := by
    intro r hr
    have hnot : ¬ r ≤ 10 := not_le.mpr hr
    have hdivpos : (0 : ℝ) ≤ r / 10 := by positivity
    unfold get_surrounding_tiles
    rw [if_neg hnot]
    rw [show pyInt (r / 10) = ⌊r / 10⌋ from by unfold pyInt; rw [if_pos hdivpos]]
    rfl
  refine ⟨hbase, ?_, ?_, ?_⟩
  · intro h
    unfold get_surrounding_tiles
    rw [if_pos h]
  · intro h
    refine ⟨hsq radius h, ?_⟩
    rw [hsq radius h, tileSquare_length]
  · intro h
    subst h
    have h25 : (10 : ℝ) < 25 := by norm_num
    have hfloor : ⌊(25 : ℝ) / 10⌋ = 2 := by
      rw [Int.floor_eq_iff]
      norm_num
    rw [hsq 25 h25, tileSquare_length, hfloor]
    rfl

/-- Witness for C1: the origin is a valid point and a 25 km radius around it
produces exactly 25 tiles. -/
theorem C1_tile_mapper_witness : (get_surrounding_tiles 0 0 25 13).length = 25 := by
  have hx : (0 : ℝ) ≤ tileRawX 0 13 := by
    unfold tileRawX
    norm_num
  have hy : (0 : ℝ) ≤ tileRawY 0 13 := by
    unfold tileRawY
    rw [zero_mul, zero_div, Real.tan_zero, Real.arsinh_zero, zero_div, sub_zero]
    norm_num
  exact (C1_tile_mapper 0 0 25 ⟨hx, hy⟩).2.2.2 rfl
